import Mathlib

/-
Verification of the FleetGlue opcua-plc device register model.

Shallow embedding of the Python sources:
  src/opcua/devices/base.py    (BaseDevice, register name constants)
  src/opcua/devices/button.py  (VirtualButton)
  src/opcua/devices/switch.py  (VirtualSwitch)
  src/opcua/server.py          (OPCUAServer: add_device / start / stop)
  src/opcua/client.py          (OPCUAClient)
  src/opcua-raspi.py           (PhysicalButton._run_simulated)

Machine integers are modelled as Nat/Int (Python integers are unbounded);
timestamps returned by time.time() are modelled as abstract Nat ticks; the
draw of random.random() is modelled as a rational in [0, 1) supplied as an
input; Python exceptions are modelled with Except.
-/

namespace OpcuaPlc

/-- A Python value stored in an OPC UA variable node (a register). Timestamps
from `time.time()` are modelled as abstract `Nat` ticks (`vTime`). -/
inductive Value where
  | vBool : Bool → Value
  | vInt : Int → Value
  | vStr : String → Value
  | vTime : Nat → Value
deriving DecidableEq, Repr

/-- Register name constant from base.py line 10. -/
def COUNT_REGISTER : String := "Count"

/-- Register name constant from base.py line 11. -/
def STATE_REGISTER : String := "State"

/-- Register name constant from base.py line 12. -/
def TYPE_REGISTER : String := "Type"

/-- Register name constant from base.py line 13. -/
def VIRTUALIZED_REGISTER : String := "Virtual"

/-- Register name constant from base.py line 14. -/
def TIME_REGISTER : String := "LastStateChange"

/-- State of a `VirtualButton` (button.py): the three writable register nodes
(`State`, `LastStateChange`, `Count`) and the private in-memory attribute
`press_count`. The metadata registers `Type` and `Virtual` are constant. -/
structure ButtonState where
  stateReg : Bool
  timeReg : Value
  countReg : Int
  press_count : Nat
deriving DecidableEq, Repr

/-- Register values set by `VirtualButton._setup_nodes` (button.py 22-34)
together with `press_count = 0` from `__init__` (button.py 20). -/
def ButtonState.init : ButtonState :=
  { stateReg := false, timeReg := .vStr "", countReg := 0, press_count := 0 }

/-- `VirtualButton.press` (button.py 36-41): write `State := true`, write
timestamp, increment the private `press_count`, write it to `Count`. -/
def ButtonState.press (b : ButtonState) (t : Nat) : ButtonState :=
  { b with stateReg := true, timeReg := .vTime t,
           press_count := b.press_count + 1,
           countReg := Int.ofNat (b.press_count + 1) }

/-- `VirtualButton.release` (button.py 43-46): write `State := false`, write
timestamp; `Count` and `press_count` untouched. -/
def ButtonState.release (b : ButtonState) (t : Nat) : ButtonState :=
  { b with stateReg := false, timeReg := .vTime t }

/-- `VirtualButton.press_and_release` (button.py 48-55): the press body
(two register writes plus one `Count` write, `press_count` incremented once)
followed immediately by the release body (two register writes). -/
def ButtonState.pressAndRelease (b : ButtonState) (t1 t2 : Nat) : ButtonState :=
  let b1 := { b with stateReg := true, timeReg := .vTime t1,
                     press_count := b.press_count + 1,
                     countReg := Int.ofNat (b.press_count + 1) }
  { b1 with stateReg := false, timeReg := .vTime t2 }

/-- N sequential calls to `press`, with the timestamp of each call given by
the list entries; no concurrent writer. -/
def ButtonState.pressN (b : ButtonState) : List Nat → ButtonState
  | [] => b
  | t :: ts => (b.press t).pressN ts

/-- N sequential calls to `press_and_release`; no concurrent writer. -/
def ButtonState.parN (b : ButtonState) : List (Nat × Nat) → ButtonState
  | [] => b
  | p :: ps => (b.pressAndRelease p.1 p.2).parN ps

/-- State of a `VirtualSwitch` (switch.py): the three writable register nodes
and the private in-memory attribute `switch_count`. -/
structure SwitchState where
  stateReg : Bool
  timeReg : Value
  countReg : Int
  switch_count : Nat
deriving DecidableEq, Repr

/-- Register values set by `VirtualSwitch._setup_nodes` (switch.py 22-35)
together with `switch_count = 0` from `__init__` (switch.py 20). -/
def SwitchState.init : SwitchState :=
  { stateReg := false, timeReg := .vStr "", countReg := 0, switch_count := 0 }

/-- `VirtualSwitch.toggle` (switch.py 37-52), success path: read `State`,
invert it, write the new `State`, write timestamp, increment the private
`switch_count`, write it to `Count`; return the new state. -/
def SwitchState.toggle (s : SwitchState) (t : Nat) : SwitchState × Bool :=
  let ns := !s.stateReg
  ({ s with stateReg := ns, timeReg := .vTime t,
            switch_count := s.switch_count + 1,
            countReg := Int.ofNat (s.switch_count + 1) }, ns)

/-- State of the simulated button loop `PhysicalButton._run_simulated`
(opcua-raspi.py 226-245): the `Pressed` and `PressCount` register nodes, the
private attribute `press_count`, and the loop-local boolean `last_state`
retained across ticks. -/
structure SimButtonState where
  pressedReg : Bool
  pressCountReg : Int
  press_count : Nat
  last_state : Bool
deriving DecidableEq, Repr

/-- One iteration of the `while self.running` loop body of
`PhysicalButton._run_simulated` (opcua-raspi.py 231-245). The draw of
`random.random()` is passed in as the rational `r`; the code flips the state
iff `r < 0.05` (the 5 percent design value), and increments the counter only
when the new state is true and the previous state was false. -/
def simTick (b : SimButtonState) (r : ℚ) : SimButtonState :=
  if r < 5/100 then
    let newState := !b.last_state
    let b1 := { b with pressedReg := newState }
    let b2 :=
      if newState && !b.last_state then
        { b1 with press_count := b1.press_count + 1,
                  pressCountReg := Int.ofNat (b1.press_count + 1) }
      else b1
    { b2 with last_state := newState }
  else b

/-- Helper invariant for C1: `press` keeps the `Count` register equal to the
private counter, and each call adds one to the private counter. -/
theorem pressN_spec (ts : List Nat) (b : ButtonState)
    (h : b.countReg = Int.ofNat b.press_count) :
    (b.pressN ts).press_count = b.press_count + ts.length ∧
    (b.pressN ts).countReg = Int.ofNat ((b.pressN ts).press_count) := by
  induction ts generalizing b with
  | nil => exact ⟨rfl, h⟩
  | cons t ts ih =>
    have := ih (b.press t) rfl
    constructor
    · rw [ButtonState.pressN, this.1, ButtonState.press]
      simp [List.length_cons]
      omega
    · exact this.2

/-- Helper invariant for C1: `press_and_release` keeps the `Count` register
equal to the private counter, adds one per call, and leaves `State = false`. -/
theorem parN_spec (ps : List (Nat × Nat)) (b : ButtonState)
    (h : b.countReg = Int.ofNat b.press_count) (hs : b.stateReg = false) :
    (b.parN ps).press_count = b.press_count + ps.length ∧
    (b.parN ps).countReg = Int.ofNat ((b.parN ps).press_count) ∧
    (b.parN ps).stateReg = false := by
  induction ps generalizing b with
  | nil => exact ⟨rfl, h, hs⟩
  | cons p ps ih =>
    have := ih (b.pressAndRelease p.1 p.2) rfl rfl
    refine ⟨?_, this.2.1, this.2.2⟩
    rw [ButtonState.parN, this.1, ButtonState.pressAndRelease]
    simp [List.length_cons]
    omega

/-- C1: starting from the initial register values, after N calls to `press`
the `Count` register equals N; after N calls to `press_and_release` the
`Count` register equals N (incremented exactly once per call) and the final
`State` register is false. -/
theorem C1_button_press_counts (ts : List Nat) (ps : List (Nat × Nat)) :
    (ButtonState.init.pressN ts).countReg = Int.ofNat ts.length ∧
    (ButtonState.init.parN ps).countReg = Int.ofNat ps.length ∧
    (ButtonState.init.parN ps).stateReg = false := by
  have h1 := pressN_spec ts ButtonState.init rfl
  have h2 := parN_spec ps ButtonState.init rfl rfl
  refine ⟨?_, ?_, h2.2.2⟩
  · rw [h1.2, h1.1]
    simp [ButtonState.init]
  · rw [h2.2.1, h2.1]
    simp [ButtonState.init]

/-- C2: `toggle` reads the current `State`, writes the inverted `State`,
writes the timestamp, increments and writes `Count`, and returns the new
state; two calls from a state whose `Count` register matches the private
counter (as holds with no concurrent writer) restore the original `State`
and increase `Count` by exactly 2. -/
theorem C2_toggle_twice (s : SwitchState) (t1 t2 : Nat)
    (h : s.countReg = Int.ofNat s.switch_count) :
    (s.toggle t1).2 = !s.stateReg ∧
    (s.toggle t1).1.stateReg = !s.stateReg ∧
    (s.toggle t1).1.timeReg = .vTime t1 ∧
    (s.toggle t1).1.switch_count = s.switch_count + 1 ∧
    (s.toggle t1).1.countReg = s.countReg + 1 ∧
    ((s.toggle t1).1.toggle t2).1.stateReg = s.stateReg ∧
    ((s.toggle t1).1.toggle t2).1.countReg = s.countReg + 2 := by
  refine ⟨rfl, rfl, rfl, rfl, ?_, ?_, ?_⟩
  · show Int.ofNat (s.switch_count + 1) = s.countReg + 1
    rw [h]
    simp only [Int.ofNat_eq_coe]
    push_cast
    ring
  · show (!(!s.stateReg)) = s.stateReg
    exact Bool.not_not s.stateReg
  · show Int.ofNat (s.switch_count + 1 + 1) = s.countReg + 2
    rw [h]
    simp only [Int.ofNat_eq_coe]
    push_cast
    ring

/-- Witness for C2 at the initial switch state with timestamps 1 and 2. -/
theorem C2_toggle_twice_witness :
    SwitchState.init.countReg = Int.ofNat SwitchState.init.switch_count ∧
    ((SwitchState.init.toggle 1).1.toggle 2).1.stateReg = SwitchState.init.stateReg ∧
    ((SwitchState.init.toggle 1).1.toggle 2).1.countReg = SwitchState.init.countReg + 2 :=
  ⟨rfl, (C2_toggle_twice SwitchState.init 1 2 rfl).2.2.2.2.2.1,
        (C2_toggle_twice SwitchState.init 1 2 rfl).2.2.2.2.2.2⟩

/-- C8: on each tick of the simulated button loop, the state flips exactly
when the random draw is below 5/100; the counter (both the private attribute
and the `PressCount` register) increments exactly on a false-to-true
transition of the retained previous-tick boolean, so it never increments when
the state merely remains true (no flip) or on a true-to-false flip. -/
theorem C8_edge_triggered_count (b : SimButtonState) (r : ℚ) :
    ((simTick b r).press_count =
        b.press_count + (if r < 5/100 ∧ b.last_state = false then 1 else 0)) ∧
    ((simTick b r).pressCountReg =
        if r < 5/100 ∧ b.last_state = false then Int.ofNat (b.press_count + 1)
        else b.pressCountReg) ∧
    ((simTick b r).last_state = if r < 5/100 then !b.last_state else b.last_state) ∧
    ((simTick b r).pressedReg = if r < 5/100 then !b.last_state else b.pressedReg) := by
  by_cases hr : r < 5/100
  · cases hls : b.last_state <;>
      simp [simTick, hr, hls]
  · simp [simTick, hr]

/-- C9: device-side `press` and `toggle` write the incremented private
counter to the `Count` register without reading the register, so the stored
`Count` after the call equals the private call count plus one regardless of
any value a client wrote to the register beforehand (such writes are
discarded). -/
theorem C9_count_write_ignores_register (b : ButtonState) (s : SwitchState)
    (x y : Int) (t u : Nat) :
    (({ b with countReg := x }).press t).countReg = Int.ofNat (b.press_count + 1) ∧
    (({ b with countReg := x }).press t).press_count = b.press_count + 1 ∧
    ((({ s with countReg := y }).toggle u).1).countReg = Int.ofNat (s.switch_count + 1) ∧
    ((({ s with countReg := y }).toggle u).1).switch_count = s.switch_count + 1 :=
  ⟨rfl, rfl, rfl, rfl⟩

/-- The device classes of the src/opcua package hierarchy. -/
inductive DeviceClass where
  | baseDevice
  | virtualButton
  | virtualSwitch
deriving DecidableEq, Repr

/-- Whether the class body itself defines a method named `_run`: the
`BaseDevice` body does (base.py 43-45); the `VirtualButton` and
`VirtualSwitch` bodies do not (button.py, switch.py define no `_run`). -/
def definesRunMethod : DeviceClass → Bool
  | .baseDevice => true
  | .virtualButton => false
  | .virtualSwitch => false

/-- The superclass of each class (`class VirtualButton(BaseDevice)`,
`class VirtualSwitch(BaseDevice)`). -/
def superclass : DeviceClass → Option DeviceClass
  | .baseDevice => none
  | .virtualButton => some .baseDevice
  | .virtualSwitch => some .baseDevice

/-- Python attribute lookup for `hasattr(self, "_run")` (base.py 37): search
the class body, then the superclass (the hierarchy here has depth two). -/
def hasRunAttr (c : DeviceClass) : Bool :=
  definesRunMethod c ||
    (match superclass c with
     | some p => definesRunMethod p
     | none => false)

/-- Mutable per-device state seen by the registry: the fields set by
`BaseDevice.__init__` (base.py 18-23) plus a count of update threads spawned
by `threading.Thread(...).start()` and the register nodes created under the
device object node. -/
structure DevState where
  name : String
  cls : DeviceClass
  running : Bool
  threads : Nat
  nodeCreated : Bool
  registers : List (String × Value)
deriving DecidableEq, Repr

/-- `BaseDevice.__init__` (base.py 18-23): thread and device node are None,
running is false. -/
def mkDevice (name : String) (cls : DeviceClass) : DevState :=
  { name := name, cls := cls, running := false, threads := 0,
    nodeCreated := false, registers := [] }

/-- Register nodes created by `VirtualButton._setup_nodes` (button.py 22-34),
in creation order. -/
def buttonRegisters : List (String × Value) :=
  [(STATE_REGISTER, .vBool false), (TIME_REGISTER, .vStr ""),
   (COUNT_REGISTER, .vInt 0), (TYPE_REGISTER, .vStr "Button"),
   (VIRTUALIZED_REGISTER, .vBool true)]

/-- Register nodes created by `VirtualSwitch._setup_nodes` (switch.py 22-35),
in creation order. -/
def switchRegisters : List (String × Value) :=
  [(STATE_REGISTER, .vBool false), (TIME_REGISTER, .vStr ""),
   (COUNT_REGISTER, .vInt 0), (TYPE_REGISTER, .vStr "Switch"),
   (VIRTUALIZED_REGISTER, .vBool true)]

/-- The `_setup_nodes` body that attribute lookup resolves for each class;
`BaseDevice._setup_nodes` is `pass` (base.py 30-32). -/
def setupNodes : DeviceClass → List (String × Value)
  | .baseDevice => []
  | .virtualButton => buttonRegisters
  | .virtualSwitch => switchRegisters

/-- `BaseDevice.initialize` (base.py 25-28): create the device object node
under the objects root, then run the `_setup_nodes` of the dynamic class. -/
def deviceInit (d : DevState) : DevState :=
  { d with nodeCreated := true, registers := setupNodes d.cls }

/-- The `_run` body of each class body; `BaseDevice._run` is `pass`
(base.py 43-45), and the other two class bodies have none to contribute. -/
def classRunBody : DeviceClass → DevState → DevState
  | .baseDevice => fun d => d
  | .virtualButton => fun d => d
  | .virtualSwitch => fun d => d

/-- The `_run` body Python attribute lookup resolves for a class: its own if
the class body defines `_run`, otherwise the superclass one. -/
def resolvedRunBody (c : DeviceClass) : DevState → DevState :=
  if definesRunMethod c then classRunBody c
  else
    match superclass c with
    | some p => classRunBody p
    | none => fun d => d

/-- `BaseDevice.start` (base.py 34-41): set `running := true`, and if
`hasattr(self, "_run")` then create a daemon thread on `self._run` and start
it (one more spawned update thread). -/
def deviceStart (d : DevState) : DevState :=
  let d1 := { d with running := true }
  if hasRunAttr d1.cls then { d1 with threads := d1.threads + 1 } else d1

/-- The fixed join timeout of `BaseDevice.stop` (base.py 50). -/
def STOP_JOIN_TIMEOUT : Nat := 2

/-- `BaseDevice.stop` (base.py 47-51): set `running := false`; if a thread
object exists (one was spawned), join it with `timeout=2`. The argument
`remaining` is the time until the update thread would exit on its own
(`none` when it never exits); `join(timeout=2)` blocks the caller for
`min remaining 2`. Returns the new state and the time blocked. -/
def deviceStop (d : DevState) (remaining : Option Nat) : DevState × Nat :=
  let d1 := { d with running := false }
  let blocked :=
    if d.threads = 0 then 0
    else
      match remaining with
      | some k => min k STOP_JOIN_TIMEOUT
      | none => STOP_JOIN_TIMEOUT
  (d1, blocked)

/-- Registry state of `OPCUAServer.__init__` (server.py 17-22): whether
`self.server` is non-None (`setup` ran), whether the underlying store server
was started, the group `running` flag, and the ordered device list. -/
structure RegistryState where
  serverSetup : Bool
  serverStarted : Bool
  running : Bool
  devices : List DevState
deriving DecidableEq, Repr

/-- The registry state right after `OPCUAServer.__init__`. -/
def RegistryState.new : RegistryState :=
  { serverSetup := false, serverStarted := false, running := false, devices := [] }

/-- `OPCUAServer.add_device` (server.py 42-49): run `setup()` if the server
is None, append the device to `self.devices`, call `device.initialize`. -/
def addDevice (r : RegistryState) (d : DevState) : RegistryState :=
  let r1 := if r.serverSetup then r else { r with serverSetup := true }
  { r1 with devices := r1.devices ++ [deviceInit d] }

/-- `OPCUAServer.start` (server.py 51-70), the state changes performed before
entering the keep-alive `while self.running` loop: run `setup()` if the
server is None, start the store server, set `running := true`, install
signal handlers (no state here), then call `start()` on every device in
addition order. -/
def registryStart (r : RegistryState) : RegistryState :=
  let r1 := if r.serverSetup then r else { r with serverSetup := true }
  let r2 := { r1 with serverStarted := true, running := true }
  { r2 with devices := r2.devices.map deviceStart }

/-- `OPCUAServer.stop` (server.py 79-91): guarded by `if self.running`; set
`running := false`, call `stop()` on every device in addition order, then
stop the store server if it exists. -/
def registryStop (r : RegistryState) : RegistryState :=
  if r.running then
    let r1 := { r with running := false,
                       devices := r.devices.map (fun d => (deviceStop d none).1) }
    if r1.serverSetup then { r1 with serverStarted := false } else r1
  else r

/-- Helper for C4 and C10: every class in the hierarchy inherits `_run`. -/
theorem hasRunAttr_always (c : DeviceClass) : hasRunAttr c = true := by
  cases c <;> rfl

/-- Helper for C4: `deviceStart` always spawns exactly one more thread. -/
theorem deviceStart_spec (d : DevState) :
    (deviceStart d).threads = d.threads + 1 ∧ (deviceStart d).running = true := by
  simp [deviceStart, hasRunAttr_always]

/-- Helper for C4: thread counts after starting every device in a list. -/
theorem map_deviceStart_threads (l : List DevState) :
    (l.map deviceStart).map DevState.threads = l.map (fun d => d.threads + 1) := by
  induction l with
  | nil => rfl
  | cons d l ih =>
    simp only [List.map_cons, ih, List.cons.injEq, and_true]
    exact (deviceStart_spec d).1

/-- C4 counterexample: a registry holding one switch device, already Running
after a first `start()`; a second `start()` is not a no-op and doubles the
update threads of the device (a second update loop is launched). -/
theorem C4_counterexample :
    (registryStart (addDevice RegistryState.new
        (mkDevice "VirtualSwitch" .virtualSwitch))).running = true ∧
    registryStart (registryStart (addDevice RegistryState.new
        (mkDevice "VirtualSwitch" .virtualSwitch)))
      ≠ registryStart (addDevice RegistryState.new
        (mkDevice "VirtualSwitch" .virtualSwitch)) ∧
    ((registryStart (registryStart (addDevice RegistryState.new
        (mkDevice "VirtualSwitch" .virtualSwitch)))).devices.map DevState.threads)
      = [2] := by
  refine ⟨rfl, ?_, rfl⟩
  decide

/-- C4 amended: `OPCUAServer.start` has no already-running guard: every call
marks the registry running and calls `start()` on every device, and each
such device `start()` spawns exactly one additional update thread — so a
second `start()` on a Running registry launches a second set of update
loops. -/
theorem C4_start_unguarded (r : RegistryState) :
    (registryStart r).running = true ∧
    (registryStart r).devices.map DevState.threads
      = r.devices.map (fun d => d.threads + 1) := by
  constructor
  · unfold registryStart
    split <;> rfl
  · show ((if r.serverSetup then r else { r with serverSetup := true }).devices.map
        deviceStart).map DevState.threads = _
    rw [map_deviceStart_threads]
    split <;> rfl

/-- C5 counterexample: adding a second device with the name of an existing
one does not fail — both copies end up in the collection. -/
theorem C5_counterexample :
    ((addDevice (addDevice RegistryState.new (mkDevice "Button1" .virtualButton))
        (mkDevice "Button1" .virtualButton)).devices.map DevState.name)
      = ["Button1", "Button1"] := by
  decide

/-- C5 amended: `add_device` performs no duplicate-name check: it appends the
device to the collection unconditionally (running `setup` first if needed)
and initializes the register nodes of the device. -/
theorem C5_addDevice_appends (r : RegistryState) (d : DevState) :
    (addDevice r d).devices = r.devices ++ [deviceInit d] ∧
    (deviceInit d).registers = setupNodes d.cls ∧
    (deviceInit d).nodeCreated = true ∧
    (addDevice r d).serverSetup = true := by
  unfold addDevice
  split <;> rename_i h <;> exact ⟨rfl, rfl, rfl, by simp_all⟩

/-- C6: `OPCUAServer.stop` is idempotent — a second call is a no-op (and in
general a call on a non-running registry is the identity); when running, it
clears `running`, stops every device in addition order, and then tears down
the store server. -/
theorem C6_stop_idempotent (r : RegistryState) :
    registryStop (registryStop r) = registryStop r ∧
    (r.running = false → registryStop r = r) ∧
    (r.running = true →
      (registryStop r).running = false ∧
      (registryStop r).devices = r.devices.map (fun d => { d with running := false }) ∧
      (r.serverSetup = true → (registryStop r).serverStarted = false)) := by
  have hstop : ∀ d : DevState, (deviceStop d none).1 = { d with running := false } :=
    fun d => rfl
  refine ⟨?_, ?_, ?_⟩
  · by_cases h : r.running
    · by_cases hs : r.serverSetup <;> simp [registryStop, h, hs]
    · simp [registryStop, h]
  · intro h
    simp [registryStop, h]
  · intro h
    by_cases hs : r.serverSetup <;> simp [registryStop, h, hs, hstop]

/-- Witness for C6 on a concrete running registry with one button device. -/
theorem C6_stop_idempotent_witness :
    (registryStart (addDevice RegistryState.new
        (mkDevice "Button1" .virtualButton))).running = true ∧
    registryStop (registryStop (registryStart (addDevice RegistryState.new
        (mkDevice "Button1" .virtualButton))))
      = registryStop (registryStart (addDevice RegistryState.new
        (mkDevice "Button1" .virtualButton))) ∧
    (registryStop (registryStart (addDevice RegistryState.new
        (mkDevice "Button1" .virtualButton)))).running = false :=
  ⟨rfl,
   (C6_stop_idempotent (registryStart (addDevice RegistryState.new
      (mkDevice "Button1" .virtualButton)))).1,
   ((C6_stop_idempotent (registryStart (addDevice RegistryState.new
      (mkDevice "Button1" .virtualButton)))).2.2 rfl).1⟩

/-- C7: `BaseDevice.stop` clears the running flag (the cooperative stop
signal the update loop polls), blocks the caller for at most the fixed
timeout of 2 time units in `thread.join(timeout=2)`, and returns with the
device marked stopped regardless of whether the thread actually exited
(the rest of the state is untouched). -/
theorem C7_stop_bounded_wait (d : DevState) (remaining : Option Nat) :
    (deviceStop d remaining).2 ≤ STOP_JOIN_TIMEOUT ∧
    (deviceStop d remaining).1 = { d with running := false } := by
  constructor
  · show (if d.threads = 0 then 0
      else match remaining with
        | some k => min k STOP_JOIN_TIMEOUT
        | none => STOP_JOIN_TIMEOUT) ≤ STOP_JOIN_TIMEOUT
    split
    · exact Nat.zero_le _
    · cases remaining with
      | none => exact Nat.le_refl _
      | some k => exact Nat.min_le_right k STOP_JOIN_TIMEOUT
  · rfl

/-- C10: `BaseDevice` itself defines `_run`, so `hasattr(self, "_run")` in
`BaseDevice.start` is true for every class in the hierarchy; hence every
`start()` call sets the running flag and spawns a new update thread — also
for `VirtualButton` and `VirtualSwitch`, whose attribute lookup resolves
`_run` to the inherited `BaseDevice._run`, whose body does nothing. -/
theorem C10_hasattr_guard_always_true (c : DeviceClass) (d : DevState) :
    hasRunAttr c = true ∧
    definesRunMethod DeviceClass.baseDevice = true ∧
    (deviceStart d).running = true ∧
    (deviceStart d).threads = d.threads + 1 ∧
    resolvedRunBody DeviceClass.virtualButton d = d ∧
    resolvedRunBody DeviceClass.virtualSwitch d = d :=
  ⟨hasRunAttr_always c, rfl, (deviceStart_spec d).2, (deviceStart_spec d).1,
   rfl, rfl⟩

/-- Python exceptions the client code can encounter at the store layer. -/
inductive PyErr where
  | connectionError
  | badNoMatch
  | attributeError
  | typeError
deriving DecidableEq, Repr

/-- The OPC UA address space as seen by the client: whether the server is
reachable over the network, and the device objects with their variable
nodes, as populated by the registry. -/
structure Store where
  reachable : Bool
  devices : List (String × List (String × Value))
deriving DecidableEq, Repr

/-- Look up a device object by browse name. -/
def Store.lookupDevice (s : Store) (dn : String) : Option (List (String × Value)) :=
  (s.devices.find? (fun p => p.1 == dn)).map (fun p => p.2)

/-- Look up a variable node of a device by browse name. -/
def Store.lookupReg (s : Store) (dn rn : String) : Option Value :=
  (s.lookupDevice dn).bind (fun regs => (regs.find? (fun p => p.1 == rn)).map (fun p => p.2))

/-- Overwrite the value of a variable node, when present. -/
def Store.setReg (s : Store) (dn rn : String) (v : Value) : Store :=
  { s with devices := s.devices.map (fun p =>
      if p.1 == dn then
        (p.1, p.2.map (fun q => if q.1 == rn then (q.1, v) else q))
      else p) }

/-- A resolved variable node handle: device browse name and register browse
name. -/
structure NodeRef where
  dev : String
  reg : String
deriving DecidableEq, Repr

/-- `objects.get_children()` (client.py 43): network call; raises when the
server is unreachable, else returns the device nodes. -/
def objectsGetChildren (s : Store) : Except PyErr (List String) :=
  if s.reachable then .ok (s.devices.map (fun p => p.1)) else .error .connectionError

/-- `objects.get_child(f"{idx}:{name}")` (client.py 58): network call; raises
when the server is unreachable or no child matches the browse name. -/
def objectsGetChild (s : Store) (dn : String) : Except PyErr String :=
  if s.reachable then
    match s.lookupDevice dn with
    | some _ => .ok dn
    | none => .error .badNoMatch
  else .error .connectionError

/-- `device.get_child(f"{idx}:{node_name}")` (client.py 83) on a valid device
handle: raises when unreachable or when the register is absent. -/
def nodeGetChild (s : Store) (dn rn : String) : Except PyErr NodeRef :=
  if s.reachable then
    match s.lookupReg dn rn with
    | some _ => .ok { dev := dn, reg := rn }
    | none => .error .badNoMatch
  else .error .connectionError

/-- `node.get_value()`: network read of a variable node. -/
def nodeGetValue (s : Store) (n : NodeRef) : Except PyErr Value :=
  if s.reachable then
    match s.lookupReg n.dev n.reg with
    | some v => .ok v
    | none => .error .badNoMatch
  else .error .connectionError

/-- `node.set_value(v)`: network write of a variable node. -/
def nodeSetValue (s : Store) (n : NodeRef) (v : Value) : Except PyErr Store :=
  if s.reachable then
    match s.lookupReg n.dev n.reg with
    | some _ => .ok (s.setReg n.dev n.reg v)
    | none => .error .badNoMatch
  else .error .connectionError

/-- A Python `try ... except Exception` block: every exception raised by the
body is caught and the sentinel is returned instead. -/
def tryOr {α : Type} (body : Except PyErr α) (sentinel : α) : Except PyErr α :=
  match body with
  | .ok a => .ok a
  | .error _ => .ok sentinel

/-- Python truthiness of a value, as used by `not current_state`
(client.py 130); a `time.time()` float is positive, hence truthy. -/
def pyTruthy : Value → Bool
  | .vBool b => b
  | .vInt i => decide (i ≠ 0)
  | .vStr s => decide (s ≠ "")
  | .vTime _ => true

namespace OPCUAClient

/-- `OPCUAClient.get_devices` (client.py 39-53): list the children of the
objects node; on any exception, log and return the empty list. -/
def getDevices (s : Store) : Except PyErr (List String) :=
  tryOr (objectsGetChildren s) []

/-- `OPCUAClient.get_device` (client.py 55-62): resolve a device child of the
objects node; on any exception, log and return None. -/
def getDevice (s : Store) (dn : String) : Except PyErr (Option String) :=
  tryOr (Except.map some (objectsGetChild s dn)) none

/-- Body of `OPCUAClient.get_device_info` (client.py 65-76): `get_device`
(which cannot raise), then `device.get_variables()` — an AttributeError when
the device handle is the None sentinel — then read every variable. -/
def getDeviceInfoBody (s : Store) (dn : String) : Except PyErr (List (String × Value)) := do
  let dev ← getDevice s dn
  match dev with
  | none => .error .attributeError
  | some h =>
    match s.lookupDevice h with
    | some regs => if s.reachable then .ok regs else .error .connectionError
    | none => .error .badNoMatch

/-- `OPCUAClient.get_device_info` (client.py 64-79): on any exception, log
and return the empty list. -/
def getDeviceInfo (s : Store) (dn : String) : Except PyErr (List (String × Value)) :=
  tryOr (getDeviceInfoBody s dn) []

/-- `OPCUAClient.get_node` (client.py 81-83): NO try/except. `get_device`
returns the None sentinel on failure, and `None.get_child(...)` then raises
an AttributeError that propagates to the caller. -/
def getNode (s : Store) (dn rn : String) : Except PyErr NodeRef := do
  let dev ← getDevice s dn
  match dev with
  | none => .error .attributeError
  | some h => nodeGetChild s h rn

/-- `OPCUAClient.get_node_value` (client.py 85-87): NO try/except; any
exception from `get_node` or `get_value` propagates to the caller. -/
def getNodeValue (s : Store) (dn rn : String) : Except PyErr Value := do
  let n ← getNode s dn rn
  nodeGetValue s n

/-- Body of `OPCUAClient.press_button` (client.py 90-101): write
`State := true`, write timestamp, read-increment-write `Count`; each store
round-trip can raise, and writes made before a failure persist. -/
def pressButtonBody (s : Store) (dn : String) (t : Nat) : Store × Except PyErr Unit :=
  match getNode s dn STATE_REGISTER with
  | .error e => (s, .error e)
  | .ok n1 =>
    match nodeSetValue s n1 (.vBool true) with
    | .error e => (s, .error e)
    | .ok s1 =>
      match getNode s1 dn TIME_REGISTER with
      | .error e => (s1, .error e)
      | .ok n2 =>
        match nodeSetValue s1 n2 (.vStr (toString t)) with
        | .error e => (s1, .error e)
        | .ok s2 =>
          match getNode s2 dn COUNT_REGISTER with
          | .error e => (s2, .error e)
          | .ok n3 =>
            match nodeGetValue s2 n3 with
            | .error e => (s2, .error e)
            | .ok (.vInt c) =>
              match nodeSetValue s2 n3 (.vInt (c + 1)) with
              | .error e => (s2, .error e)
              | .ok s3 => (s3, .ok ())
            | .ok _ => (s2, .error .typeError)

/-- `OPCUAClient.press_button` (client.py 89-103): on any exception, log and
return (sentinel None). -/
def pressButton (s : Store) (dn : String) (t : Nat) : Store × Except PyErr Unit :=
  ((pressButtonBody s dn t).1, tryOr (pressButtonBody s dn t).2 ())

/-- Body of `OPCUAClient.release_button` (client.py 106-113): write
`State := false`, write timestamp; no count change. -/
def releaseButtonBody (s : Store) (dn : String) (t : Nat) : Store × Except PyErr Unit :=
  match getNode s dn STATE_REGISTER with
  | .error e => (s, .error e)
  | .ok n1 =>
    match nodeSetValue s n1 (.vBool false) with
    | .error e => (s, .error e)
    | .ok s1 =>
      match getNode s1 dn TIME_REGISTER with
      | .error e => (s1, .error e)
      | .ok n2 =>
        match nodeSetValue s1 n2 (.vStr (toString t)) with
        | .error e => (s1, .error e)
        | .ok s2 => (s2, .ok ())

/-- `OPCUAClient.release_button` (client.py 105-115): on any exception, log
and return. -/
def releaseButton (s : Store) (dn : String) (t : Nat) : Store × Except PyErr Unit :=
  ((releaseButtonBody s dn t).1, tryOr (releaseButtonBody s dn t).2 ())

/-- `OPCUAClient.press_and_release_button` (client.py 117-122): press then
release, each itself already catching; the outer try/except sees only
normal returns. -/
def pressAndReleaseButton (s : Store) (dn : String) (t1 t2 : Nat) :
    Store × Except PyErr Unit :=
  let p := pressButton s dn t1
  let q := releaseButton p.1 dn t2
  (q.1, tryOr (do let _ ← p.2; q.2) ())

/-- Body of `OPCUAClient.toggle_switch` (client.py 125-141): read `State`,
write the inverted state, write timestamp, read-increment-write `Count`,
return the new state. -/
def toggleSwitchBody (s : Store) (dn : String) (t : Nat) : Store × Except PyErr Bool :=
  match getNode s dn STATE_REGISTER with
  | .error e => (s, .error e)
  | .ok n1 =>
    match nodeGetValue s n1 with
    | .error e => (s, .error e)
    | .ok v =>
      let ns := !(pyTruthy v)
      match nodeSetValue s n1 (.vBool ns) with
      | .error e => (s, .error e)
      | .ok s1 =>
        match getNode s1 dn TIME_REGISTER with
        | .error e => (s1, .error e)
        | .ok n2 =>
          match nodeSetValue s1 n2 (.vStr (toString t)) with
          | .error e => (s1, .error e)
          | .ok s2 =>
            match getNode s2 dn COUNT_REGISTER with
            | .error e => (s2, .error e)
            | .ok n3 =>
              match nodeGetValue s2 n3 with
              | .error e => (s2, .error e)
              | .ok (.vInt c) =>
                match nodeSetValue s2 n3 (.vInt (c + 1)) with
                | .error e => (s2, .error e)
                | .ok s3 => (s3, .ok ns)
              | .ok _ => (s2, .error .typeError)

/-- `OPCUAClient.toggle_switch` (client.py 124-144): returns the new state,
or the sentinel None when any exception was caught. -/
def toggleSwitch (s : Store) (dn : String) (t : Nat) : Store × Except PyErr (Option Bool) :=
  ((toggleSwitchBody s dn t).1, tryOr (Except.map some (toggleSwitchBody s dn t).2) none)

/-- `OPCUAClient.get_count_node` (client.py 146-152): `get_node_value` on the
`Count` register inside a try/except; sentinel None. -/
def getCountNode (s : Store) (dn : String) : Except PyErr (Option Value) :=
  tryOr (Except.map some (getNodeValue s dn COUNT_REGISTER)) none

/-- `OPCUAClient.get_last_change_timestamp` (client.py 154-160):
`get_node_value` on the timestamp register inside a try/except; sentinel
None. -/
def getLastChangeTimestamp (s : Store) (dn : String) : Except PyErr (Option Value) :=
  tryOr (Except.map some (getNodeValue s dn TIME_REGISTER)) none

end OPCUAClient

/-- Whether an Except-valued computation returned normally (raised no
exception). -/
def exOk {α : Type} : Except PyErr α → Bool
  | .ok _ => true
  | .error _ => false

/-- Helper for C3: a try/except block never lets an exception escape. -/
theorem tryOr_exOk {α : Type} (body : Except PyErr α) (sentinel : α) :
    exOk (tryOr body sentinel) = true := by
  cases body <;> rfl

/-- C3 counterexample: with a reachable store holding no devices, the client
operation `get_node_value` raises (an AttributeError from calling
`get_child` on the None sentinel that `get_device` returned) instead of
returning a sentinel — so not every client operation converts failure into a
sentinel return. -/
theorem C3_counterexample :
    OPCUAClient.getNodeValue { reachable := true, devices := [] } "Button1" "Count"
      = .error .attributeError ∧
    exOk (OPCUAClient.getNodeValue { reachable := true, devices := [] }
      "Button1" "Count") = false := by
  exact ⟨rfl, rfl⟩

/-- C3 amended: every Register Client operation that wraps its body in
try/except — get_devices, get_device, get_device_info, press_button,
release_button, press_and_release_button, toggle_switch, get_count_node and
get_last_change_timestamp — returns a sentinel instead of raising, for every
store state and arguments; but get_node and get_node_value have no handler
and propagate store-layer exceptions to the caller. -/
theorem C3_guarded_ops_never_raise (s : Store) (dn : String) (t t2 : Nat) :
    exOk (OPCUAClient.getDevices s) = true ∧
    exOk (OPCUAClient.getDevice s dn) = true ∧
    exOk (OPCUAClient.getDeviceInfo s dn) = true ∧
    exOk (OPCUAClient.getCountNode s dn) = true ∧
    exOk (OPCUAClient.getLastChangeTimestamp s dn) = true ∧
    exOk (OPCUAClient.pressButton s dn t).2 = true ∧
    exOk (OPCUAClient.releaseButton s dn t).2 = true ∧
    exOk (OPCUAClient.pressAndReleaseButton s dn t t2).2 = true ∧
    exOk (OPCUAClient.toggleSwitch s dn t).2 = true :=
  ⟨tryOr_exOk _ _, tryOr_exOk _ _, tryOr_exOk _ _, tryOr_exOk _ _, tryOr_exOk _ _,
   tryOr_exOk _ _, tryOr_exOk _ _, tryOr_exOk _ _, tryOr_exOk _ _⟩

end OpcuaPlc
